import Mathlib

/-!
Verification of the work-item assistant service (`main.py`,
`src/services/llm.py`, `src/services/llm_gate.py`, `src/services/ado.py`).

Python JSON values are embedded as `JVal`; Python dicts as insertion-ordered
association lists (`Obj`), with `setdefault` appending at the end and
assignment replacing in place, matching CPython dict semantics.  Floats are
modelled as rationals (the code only clamps and compares them; NaN/Infinity
string coercions are out of scope and modelled as coercion failures).
-/

namespace ACR

/-- A JSON value, as produced by `json.loads` and handled by the service. -/
inductive JVal where
  | null
  | bool (b : Bool)
  | num (q : ℚ)
  | str (s : String)
  | arr (xs : List JVal)
  | obj (fields : List (String × JVal))

/-- A parsed JSON object body: an insertion-ordered dict. -/
abbrev Obj := List (String × JVal)

/-- Python `d[k]` read: first (unique, in CPython) binding of `k`. -/
def lookupKey (k : String) : Obj → Option JVal
  | [] => none
  | (k2, v) :: rest => if k2 = k then some v else lookupKey k rest

/-- Python `d[k] = v`: replace in place if present, else append at the end. -/
def setKey (k : String) (v : JVal) : Obj → Obj
  | [] => [(k, v)]
  | (k2, w) :: rest => if k2 = k then (k2, v) :: rest else (k2, w) :: setKey k v rest

/-- Python `d.setdefault(k, v)`: insert (at the end) only when absent. -/
def setdefault (k : String) (v : JVal) (l : Obj) : Obj :=
  if (lookupKey k l).isSome then l else l ++ [(k, v)]

/-- Python `d.get(k)` (default `None`). -/
def pyGet (k : String) (l : Obj) : JVal :=
  (lookupKey k l).getD JVal.null

/-- Python `isinstance(v, list)`. -/
def JVal.isArr : JVal → Bool
  | .arr _ => true
  | _ => false

/-- Python truthiness of a JSON value (`bool(v)`). -/
def pyTruthy : JVal → Bool
  | .null => false
  | .bool b => b
  | .num q => decide (q ≠ 0)
  | .str s => decide (s ≠ "")
  | .arr xs => !xs.isEmpty
  | .obj fs => !fs.isEmpty

/-- The ASCII whitespace stripped by Python `str.strip()`. -/
def isPyWs (c : Char) : Bool :=
  c = ' ' ∨ c = Char.ofNat 9 ∨ c = Char.ofNat 10 ∨ c = Char.ofNat 13
    ∨ c = Char.ofNat 11 ∨ c = Char.ofNat 12

/-- Drop leading whitespace characters. -/
def dropWs : List Char → List Char
  | [] => []
  | c :: cs => if isPyWs c then dropWs cs else c :: cs

/-- Python `s.strip()`: leading and trailing whitespace removed. -/
def pyStrip (s : String) : String :=
  String.mk ((dropWs (dropWs s.data).reverse).reverse)

/-- Python `s.upper()` (ASCII; the inputs of interest are ASCII tags). -/
def pyUpper (s : String) : String :=
  String.mk (s.data.map Char.toUpper)

/-- Python `s.startswith(pre)`. -/
def pyStartsWith (s pre : String) : Bool :=
  s.data.take pre.data.length = pre.data

/-- Decimal digits of a natural number. -/
def natRepr (n : Nat) : String := toString n

/-- Smallest `k ≤ 40` with `den ∣ 10 ^ k`, if any: terminating-decimal test. -/
def pow10Exp (den : Nat) : Option Nat :=
  (List.range 41).find? (fun k => 10 ^ k % den = 0)

/-- Python `str(x)` for a float-like rational: exact decimal when the
denominator divides a power of ten, fraction notation otherwise (the
code never branches on this string, it only stores it). -/
def numRepr (q : ℚ) : String :=
  if q.den = 1 then toString q.num
  else
    match pow10Exp q.den with
    | some k =>
        let scaled : Nat := q.num.natAbs * (10 ^ k / q.den)
        let ds := (natRepr scaled).data
        let ds := if ds.length < k + 1 then List.replicate (k + 1 - ds.length) (Char.ofNat 48) ++ ds else ds
        (if q.num < 0 then "-" else "")
          ++ String.mk (ds.take (ds.length - k)) ++ "." ++ String.mk (ds.drop (ds.length - k))
    | none => toString q.num ++ "/" ++ toString q.den

mutual
/-- Python `str(x)` on a JSON value (`str(None) = "None"`, `str(True) = "True"`,
lists/dicts rendered with brackets; string elements of containers are quoted as
in `repr`, without escape handling, which the code never inspects). -/
def pyStr : JVal → String
  | .null => "None"
  | .bool true => "True"
  | .bool false => "False"
  | .num q => numRepr q
  | .str s => s
  | .arr xs => "\x5b" ++ pyStrList xs ++ "\x5d"
  | .obj fs => "\x7b" ++ pyStrObj fs ++ "\x7d"

/-- Python `repr(x)`: like `pyStr` but strings get quotes. -/
def pyRepr : JVal → String
  | .str s => String.singleton (Char.ofNat 39) ++ s ++ String.singleton (Char.ofNat 39)
  | v => pyStr v

/-- Comma-separated `repr`s of list elements. -/
def pyStrList : List JVal → String
  | [] => ""
  | [x] => pyRepr x
  | x :: rest => pyRepr x ++ ", " ++ pyStrList rest

/-- Comma-separated `repr`ed key/value pairs of a dict. -/
def pyStrObj : List (String × JVal) → String
  | [] => ""
  | [(k, v)] => pyRepr (.str k) ++ ": " ++ pyRepr v
  | (k, v) :: rest => pyRepr (.str k) ++ ": " ++ pyRepr v ++ ", " ++ pyStrObj rest
end

/-- Is `c` an ASCII decimal digit? -/
def isDigitChar (c : Char) : Bool := 48 ≤ c.toNat && c.toNat ≤ 57

/-- Split a leading run of digits off a character list. -/
def takeDigits : List Char → List Char × List Char
  | [] => ([], [])
  | c :: cs =>
      if isDigitChar c then
        let (ds, rest) := takeDigits cs
        (c :: ds, rest)
      else ([], c :: cs)

/-- Numeric value of a digit run. -/
def digitsToNat : List Char → Nat
  | [] => 0
  | c :: cs => (c.toNat - 48) * 10 ^ cs.length + digitsToNat cs

/-- Parse an optional decimal exponent suffix (`e`/`E`, sign, digits),
returning the signed exponent and the remaining input. -/
def parseExpPart : List Char → Option (Int × List Char)
  | c :: cs =>
      if c = Char.ofNat 101 ∨ c = Char.ofNat 69 then
        match cs with
        | s :: cs2 =>
            if s = Char.ofNat 45 then
              match takeDigits cs2 with
              | ([], _) => none
              | (ds, rest) => some (-(digitsToNat ds : Int), rest)
            else if s = Char.ofNat 43 then
              match takeDigits cs2 with
              | ([], _) => none
              | (ds, rest) => some ((digitsToNat ds : Int), rest)
            else
              match takeDigits (s :: cs2) with
              | ([], _) => none
              | (ds, rest) => some ((digitsToNat ds : Int), rest)
        | [] => none
      else some (0, c :: cs)
  | [] => some (0, [])

/-- Scale a rational by `10 ^ e` for a signed `e`. -/
def scalePow10 (q : ℚ) (e : Int) : ℚ :=
  if 0 ≤ e then q * (10 : ℚ) ^ e.toNat else q / (10 : ℚ) ^ (-e).toNat

/-- Parse the body of a decimal number (digits, optional fraction, optional
exponent) into a rational together with the rest of the input. -/
def parseDecimal (cs : List Char) : Option (ℚ × List Char) :=
  match takeDigits cs with
  | ([], _) => none
  | (ds, rest) =>
      let ip : ℚ := (digitsToNat ds : ℚ)
      match rest with
      | dot :: rest2 =>
          if dot = Char.ofNat 46 then
            match takeDigits rest2 with
            | ([], _) => none
            | (fs, rest3) =>
                let fr : ℚ := (digitsToNat fs : ℚ) / (10 : ℚ) ^ fs.length
                match parseExpPart rest3 with
                | some (e, rest4) => some (scalePow10 (ip + fr) e, rest4)
                | none => none
          else
            match parseExpPart (dot :: rest2) with
            | some (e, rest4) => some (scalePow10 ip e, rest4)
            | none => none
      | [] => some (ip, [])

/-- Python `float(s)` on a string: strip, optional sign, decimal literal.
(`inf`/`nan` spellings are not modelled and count as failures.) -/
def strToFloat (s : String) : Option ℚ :=
  let cs := (pyStrip s).data
  match cs with
  | c :: rest =>
      if c = Char.ofNat 45 then
        match parseDecimal rest with
        | some (q, []) => some (-q)
        | _ => none
      else if c = Char.ofNat 43 then
        match parseDecimal rest with
        | some (q, []) => some q
        | _ => none
      else
        match parseDecimal cs with
        | some (q, []) => some q
        | _ => none
  | [] => none

/-- Python `float(v)` on a JSON value: numbers and bools coerce, numeric
strings parse, everything else raises (`none`). -/
def pyFloat : JVal → Option ℚ
  | .num q => some q
  | .bool true => some 1
  | .bool false => some 0
  | .str s => strToFloat s
  | _ => none

/-- Python `max(0.0, min(1.0, c))`. -/
def clamp01 (q : ℚ) : ℚ := max 0 (min 1 q)

/-! ### The Contract Normalizer, draft path (`llm.py` lines 115-137) -/

/-- The five list-typed draft fields coerced at `llm.py` line 125. -/
def draftListFields : List String :=
  ["acceptanceCriteria", "tasks", "assumptions", "dependencies", "questions"]

/-- One iteration of the `llm.py` line 125-127 loop:
`if not isinstance(data.get(k), list): data[k] = [str(data.get(k))]`. -/
def coerceListField (k : String) (l : Obj) : Obj :=
  if (pyGet k l).isArr then l else setKey k (.arr [.str (pyStr (pyGet k l))]) l

/-- Lines 129-133 of `llm.py`: coerce `confidence` to float, clamp to `[0,1]`,
substitute `0.5` when coercion raises. -/
def normDraftConfidence (l : Obj) : Obj :=
  match pyFloat ((lookupKey "confidence" l).getD (.num (1/2))) with
  | some c => setKey "confidence" (.num (clamp01 c)) l
  | none => setKey "confidence" (.num (1/2)) l

/-- Lines 135-136 of `llm.py`: default the title when its string form is blank. -/
def normDraftTitle (l : Obj) : Obj :=
  if pyStrip (pyStr ((lookupKey "title" l).getD (.str ""))) = "" then
    setKey "title" (.str "New Work Item") l
  else l

/-- The `data.setdefault(k, default)` lines, applied first to last. -/
def applyDefaults (ds : List (String × JVal)) (l : Obj) : Obj :=
  ds.foldl (fun acc kv => setdefault kv.1 kv.2 acc) l

/-- The `llm.py` line 125 loop over the five list fields, first to last. -/
def coerceListFields (ks : List String) (l : Obj) : Obj :=
  ks.foldl (fun acc k => coerceListField k acc) l

/-- The nine `setdefault` pairs of `llm.py` lines 115-123, in source order. -/
def draftDefaults : List (String × JVal) :=
  [("title", .str "New Work Item"), ("description", .str ""), ("valueStatement", .str ""),
   ("acceptanceCriteria", .arr []), ("tasks", .arr []), ("assumptions", .arr []),
   ("dependencies", .arr []), ("questions", .arr []), ("confidence", .num (1/2))]

/-- The draft-path Contract Normalizer: `llm.py` lines 115-137 applied to the
parsed object (defaults, list coercion, confidence clamp, title default,
in source order). -/
def normalizeDraft (data : Obj) : Obj :=
  normDraftTitle (normDraftConfidence (coerceListFields draftListFields
    (applyDefaults draftDefaults data)))

/-! ### The Contract Normalizer, gate path (`llm_gate.py` lines 92-106) -/

/-- Lines 98-101 of `llm_gate.py`: clamp `confidence`, substitute `0.6` when the
float coercion (or the `data["confidence"]` lookup) raises. -/
def normGateConfidence (l : Obj) : Obj :=
  match lookupKey "confidence" l with
  | some v =>
      match pyFloat v with
      | some c => setKey "confidence" (.num (clamp01 c)) l
      | none => setKey "confidence" (.num (3/5)) l
  | none => setKey "confidence" (.num (3/5)) l

/-- Lines 103-104 of `llm_gate.py`: a non-list `questions` becomes `[]`. -/
def normGateQuestions (l : Obj) : Obj :=
  if (pyGet "questions" l).isArr then l else setKey "questions" (.arr []) l

/-- Lines 105-106 of `llm_gate.py`: a non-list `assumptions` becomes `[]`. -/
def normGateAssumptions (l : Obj) : Obj :=
  if (pyGet "assumptions" l).isArr then l else setKey "assumptions" (.arr []) l

/-- The five `setdefault` pairs of `llm_gate.py` lines 92-96, in source
order. -/
def gateDefaults : List (String × JVal) :=
  [("action", .str "create_draft"),
   ("messageToUser", .str "I created a draft work item."),
   ("questions", .arr []), ("assumptions", .arr []), ("confidence", .num (3/5))]

/-- The gate-path Contract Normalizer: `llm_gate.py` lines 92-106 applied to
the parsed object (defaults, confidence clamp, list coercions, in source
order). -/
def normalizeGate (data : Obj) : Obj :=
  normGateAssumptions (normGateQuestions (normGateConfidence
    (applyDefaults gateDefaults data)))

/-- The invariant established by the draft-path normalizer: every schema key
present, the five list fields list-valued, confidence a clamped number, and
the title non-blank. -/
def DraftNormalized (l : Obj) : Prop :=
  (∀ k ∈ draftDefaults.map Prod.fst, (lookupKey k l).isSome) ∧
  (∀ k ∈ draftListFields, (pyGet k l).isArr) ∧
  (∃ q, lookupKey "confidence" l = some (.num q) ∧ clamp01 q = q) ∧
  pyStrip (pyStr ((lookupKey "title" l).getD (.str ""))) ≠ ""

/-- The invariant established by the gate-path normalizer. -/
def GateNormalized (l : Obj) : Prop :=
  (∀ k ∈ gateDefaults.map Prod.fst, (lookupKey k l).isSome) ∧
  (∃ q, lookupKey "confidence" l = some (.num q) ∧ clamp01 q = q) ∧
  (pyGet "questions" l).isArr ∧ (pyGet "assumptions" l).isArr

/-! ### `json.loads` model: a strict JSON parser

Fuel-indexed recursive descent; the fuel passed at top level is generous.
Python-specific laxities of `json.loads` (accepting `NaN`/`Infinity`,
rejecting leading zeros) are not modelled; no claim depends on them. -/

/-- Drop leading JSON whitespace. -/
def skipWs : List Char → List Char
  | [] => []
  | c :: cs =>
      if c = ' ' ∨ c = Char.ofNat 9 ∨ c = Char.ofNat 10 ∨ c = Char.ofNat 13 then skipWs cs
      else c :: cs

/-- Value of a hex digit. -/
def hexVal (c : Char) : Option Nat :=
  if 48 ≤ c.toNat ∧ c.toNat ≤ 57 then some (c.toNat - 48)
  else if 97 ≤ c.toNat ∧ c.toNat ≤ 102 then some (c.toNat - 87)
  else if 65 ≤ c.toNat ∧ c.toNat ≤ 70 then some (c.toNat - 55)
  else none

/-- JSON single-character escapes. -/
def escChar (e : Char) : Option Char :=
  if e = Char.ofNat 34 then some (Char.ofNat 34)
  else if e = Char.ofNat 92 then some (Char.ofNat 92)
  else if e = Char.ofNat 47 then some (Char.ofNat 47)
  else if e = 'b' then some (Char.ofNat 8)
  else if e = 'f' then some (Char.ofNat 12)
  else if e = 'n' then some (Char.ofNat 10)
  else if e = 'r' then some (Char.ofNat 13)
  else if e = 't' then some (Char.ofNat 9)
  else none

mutual
/-- Parse one JSON value, returning it and the unconsumed input. -/
def parseJVal (fuel : Nat) (cs : List Char) : Option (JVal × List Char) :=
  match fuel with
  | 0 => none
  | f + 1 =>
    match skipWs cs with
    | [] => none
    | c :: rest =>
      if c = Char.ofNat 123 then
        match skipWs rest with
        | [] => none
        | c2 :: rest2 =>
            if c2 = Char.ofNat 125 then some (.obj [], rest2)
            else
              match parseJMembers f (c2 :: rest2) with
              | some (fs, rest3) => some (.obj fs, rest3)
              | none => none
      else if c = Char.ofNat 91 then
        match skipWs rest with
        | [] => none
        | c2 :: rest2 =>
            if c2 = Char.ofNat 93 then some (.arr [], rest2)
            else
              match parseJItems f (c2 :: rest2) with
              | some (xs, rest3) => some (.arr xs, rest3)
              | none => none
      else if c = Char.ofNat 34 then
        match parseJString f rest with
        | some (s, rest2) => some (.str s, rest2)
        | none => none
      else if c = 't' then
        if rest.take 3 = ['r', 'u', 'e'] then some (.bool true, rest.drop 3) else none
      else if c = 'f' then
        if rest.take 4 = ['a', 'l', 's', 'e'] then some (.bool false, rest.drop 4) else none
      else if c = 'n' then
        if rest.take 3 = ['u', 'l', 'l'] then some (.null, rest.drop 3) else none
      else if c = Char.ofNat 45 then
        match parseDecimal rest with
        | some (q, rest2) => some (.num (-q), rest2)
        | none => none
      else if isDigitChar c then
        match parseDecimal (c :: rest) with
        | some (q, rest2) => some (.num q, rest2)
        | none => none
      else none

/-- Parse the members of an object after its first non-`}` character,
consuming the closing brace. -/
def parseJMembers (fuel : Nat) (cs : List Char) : Option (List (String × JVal) × List Char) :=
  match fuel with
  | 0 => none
  | f + 1 =>
    match skipWs cs with
    | [] => none
    | c :: rest =>
      if c = Char.ofNat 34 then
        match parseJString f rest with
        | none => none
        | some (k, rest2) =>
          match skipWs rest2 with
          | [] => none
          | c2 :: rest3 =>
            if c2 = ':' then
              match parseJVal f rest3 with
              | none => none
              | some (v, rest4) =>
                match skipWs rest4 with
                | [] => none
                | c3 :: rest5 =>
                  if c3 = ',' then
                    match parseJMembers f rest5 with
                    | some (ms, rest6) => some ((k, v) :: ms, rest6)
                    | none => none
                  else if c3 = Char.ofNat 125 then some ([(k, v)], rest5)
                  else none
            else none
      else none

/-- Parse the items of an array after its first non-`]` character,
consuming the closing bracket. -/
def parseJItems (fuel : Nat) (cs : List Char) : Option (List JVal × List Char) :=
  match fuel with
  | 0 => none
  | f + 1 =>
    match parseJVal f cs with
    | none => none
    | some (v, rest) =>
      match skipWs rest with
      | [] => none
      | c :: rest2 =>
        if c = ',' then
          match parseJItems f rest2 with
          | some (xs, rest3) => some (v :: xs, rest3)
          | none => none
        else if c = Char.ofNat 93 then some ([v], rest2)
        else none

/-- Parse a JSON string body after the opening quote, consuming the
closing quote. -/
def parseJString (fuel : Nat) (cs : List Char) : Option (String × List Char) :=
  match fuel with
  | 0 => none
  | f + 1 =>
    match cs with
    | [] => none
    | c :: rest =>
      if c = Char.ofNat 34 then some ("", rest)
      else if c = Char.ofNat 92 then
        match rest with
        | [] => none
        | e :: rest2 =>
          if e = 'u' then
            match rest2 with
            | h1 :: h2 :: h3 :: h4 :: rest3 =>
              match hexVal h1, hexVal h2, hexVal h3, hexVal h4 with
              | some a, some b, some c4, some d =>
                match parseJString f rest3 with
                | some (s, rest4) =>
                    some (String.singleton (Char.ofNat (((a * 16 + b) * 16 + c4) * 16 + d)) ++ s, rest4)
                | none => none
              | _, _, _, _ => none
            | _ => none
          else
            match escChar e with
            | some ec =>
              match parseJString f rest2 with
              | some (s, rest3) => some (String.singleton ec ++ s, rest3)
              | none => none
            | none => none
      else
        match parseJString f rest with
        | some (s, rest2) => some (String.singleton c ++ s, rest2)
        | none => none
end

/-- Model of `json.loads`: parse a whole string as one JSON value (surrounding
whitespace allowed, trailing garbage rejected). -/
def jsonParse (s : String) : Option JVal :=
  match parseJVal (4 * (s.length + 1)) s.data with
  | some (v, rest) => if skipWs rest = [] then some v else none
  | none => none

/-! ### `_safe_json` and `soft_gate` (`llm_gate.py`) -/

/-- Index of the first occurrence of `c` (Python `text.find`). -/
def findCharIdx (c : Char) : List Char → Option Nat
  | [] => none
  | d :: rest => if d = c then some 0 else (findCharIdx c rest).map (· + 1)

/-- Index of the last occurrence of `c` (Python `text.rfind`). -/
def rfindCharIdx (c : Char) (cs : List Char) : Option Nat :=
  match findCharIdx c cs.reverse with
  | some i => some (cs.length - 1 - i)
  | none => none

/-- Lines 49-53 of `llm_gate.py`: the slice from the first `\x7b` to the last
`\x7d`, when the latter comes strictly after the former. -/
def braceSubstring (text : String) : Option String :=
  match findCharIdx (Char.ofNat 123) text.data, rfindCharIdx (Char.ofNat 125) text.data with
  | some s, some e => if s < e then some (String.mk ((text.data.drop s).take (e + 1 - s))) else none
  | _, _ => none

/-- The static fallback object of `_safe_json` (`llm_gate.py` lines 57-63). -/
def gateFallback : Obj :=
  [("action", .str "create_draft"),
   ("messageToUser", .str "I created a draft work item. A few details would help finalize it."),
   ("questions", .arr [.str "What is the scope, environment, and how will we validate success?"]),
   ("assumptions", .arr []),
   ("confidence", .num (1/2))]

/-- Model of `_safe_json` (`llm_gate.py` lines 44-63): strict parse, then brace-slice
parse, then the static fallback.  `None` content behaves as `""`. -/
def safe_json (text : Option String) : JVal :=
  let t := pyStrip (text.getD "")
  match jsonParse t with
  | some v => v
  | none =>
    match braceSubstring t with
    | some sub =>
      match jsonParse sub with
      | some v => v
      | none => .obj gateFallback
    | none => .obj gateFallback

/-- A Python exception observable through the service boundary. -/
inductive PyError where
  | typeError (msg : String)
  | runtimeError (msg : String)
  | attributeError
  | httpError (code : Nat)
  deriving DecidableEq

/-- The short-circuit gate result of `llm_gate.py` lines 70-76
(0.2 is the rational 1/5). -/
def shortCircuitGate : Obj :=
  [("action", .str "ask_questions_only"),
   ("messageToUser", .str "Please provide at least a short phrase describing the work item."),
   ("questions", .arr [.str "What do you want to build/fix/change?"]),
   ("assumptions", .arr []),
   ("confidence", .num (1/5))]

/-- Result of a gate evaluation, recording whether the oracle was invoked. -/
structure GateOutcome where
  result : Except PyError Obj
  oracleCalled : Bool

/-- Model of `soft_gate` (`llm_gate.py` lines 66-108).  The oracle is modelled by the
message content it would return (`none` for a null content).  A parsed
non-dict payload makes the `setdefault` calls raise `AttributeError`. -/
def soft_gate (notes : String) (oracle : Option String) : GateOutcome :=
  let nt := pyStrip notes
  if nt.length < 2 then ⟨.ok shortCircuitGate, false⟩
  else
    match safe_json oracle with
    | .obj fields => ⟨.ok (normalizeGate fields), true⟩
    | _ => ⟨.error .attributeError, true⟩

/-! ### `generate_work_item_draft` (`llm.py`) -/

/-- The canned draft for empty notes (`llm.py` lines 72-82). -/
def cannedDraft : Obj :=
  [("title", .str "New Work Item"),
   ("description", .str "Draft created from empty input. Please add details."),
   ("valueStatement", .str "Improve clarity and track work."),
   ("acceptanceCriteria", .arr [.str "Requester provides requirements and validation steps."]),
   ("tasks", .arr [.str "Collect requirements", .str "Define acceptance criteria"]),
   ("assumptions", .arr []),
   ("dependencies", .arr []),
   ("questions", .arr [.str "What do you want to build/fix?", .str "What does success look like?"]),
   ("confidence", .num (1/5))]

/-- Result of a draft generation, recording whether the oracle was invoked. -/
structure DraftOutcome where
  result : Except PyError Obj
  oracleCalled : Bool

/-- Model of `generate_work_item_draft` (`llm.py` lines 65-138), with the oracle
modelled by the content it returns.  Note the draft path parses with plain
`json.loads` and performs no brace-substring recovery; a parsed non-dict
payload makes the `setdefault` calls raise `AttributeError`. -/
def generate_work_item_draft (notes : String) (oracle : Option String) : DraftOutcome :=
  let nt := pyStrip notes
  if nt = "" then ⟨.ok cannedDraft, false⟩
  else
    let raw := pyStrip (oracle.getD "")
    if raw = "" then ⟨.error (.runtimeError "Model returned empty response"), true⟩
    else
      match jsonParse raw with
      | none => ⟨.error (.runtimeError "Model returned invalid JSON"), true⟩
      | some (.obj fields) => ⟨.ok (normalizeDraft fields), true⟩
      | some _ => ⟨.error .attributeError, true⟩

/-! ### Request orchestration (`main.py`) -/

/-- The question-merge rule at `main.py` lines 126-127 and 164-165:
`if not draft.get("questions") and gate.get("questions"):
draft["questions"] = gate["questions"]`. -/
def mergeQuestions (draft gate : Obj) : Obj :=
  if !pyTruthy (pyGet "questions" draft) && pyTruthy (pyGet "questions" gate) then
    setKey "questions" (pyGet "questions" gate) draft
  else draft

/-! ### Tracking-system adapter (`ado.py`) -/

/-- UTF-8 bytes of one scalar value. -/
def utf8Bytes (c : Char) : List Nat :=
  let n := c.toNat
  if n < 128 then [n]
  else if n < 2048 then [192 + n / 64, 128 + n % 64]
  else if n < 65536 then [224 + n / 4096, 128 + (n / 64) % 64, 128 + n % 64]
  else [240 + n / 262144, 128 + (n / 4096) % 64, 128 + (n / 64) % 64, 128 + n % 64]

/-- Python `s.encode("utf-8")` as a byte list. -/
def utf8Encode (s : String) : List Nat := (s.data.map utf8Bytes).flatten

/-- The standard base64 alphabet. -/
def b64Chars : List Char :=
  "ABCDEFGHIJKLMNOPQRSTUVWXYZabcdefghijklmnopqrstuvwxyz0123456789+/".data

/-- Character for one 6-bit group. -/
def b64Char (n : Nat) : Char := b64Chars.getD n (Char.ofNat 65)

/-- Python `base64.b64encode` with `=` padding. -/
def base64Encode : List Nat → String
  | [] => ""
  | [a] =>
      String.mk [b64Char (a / 4), b64Char ((a % 4) * 16), Char.ofNat 61, Char.ofNat 61]
  | [a, b] =>
      String.mk [b64Char (a / 4), b64Char ((a % 4) * 16 + b / 16), b64Char ((b % 16) * 4),
        Char.ofNat 61]
  | a :: b :: c :: rest =>
      String.mk [b64Char (a / 4), b64Char ((a % 4) * 16 + b / 16),
        b64Char ((b % 16) * 4 + c / 64), b64Char (c % 64)] ++ base64Encode rest

/-- Model of `auth_header_from_pat` (`ado.py` lines 9-15): basic auth with empty
username, i.e. base64 of `":" + pat`. -/
def auth_header_from_pat (pat : String) : String :=
  "Basic " ++ base64Encode (utf8Encode (":" ++ pat))

/-- Model of `render_description_html` (`ado.py` lines 18-27). -/
def render_description_html (description_md : String) : String :=
  if description_md = "" then "" else "<div>" ++ description_md ++ "</div>"

/-- The work-item-type mapping inlined at `ado.py` lines 58-60. -/
def mapWorkItemType (work_item_type : String) : String :=
  let wit := pyStrip work_item_type
  if pyUpper wit = "PBI" then "Product Backlog Item" else wit

/-- The configuration values `create_work_item` reads (empty = unset). -/
structure Settings where
  ADO_ORG_URL : String
  ADO_PROJECT : String
  ADO_PAT : String

/-- The outbound HTTP request `create_work_item` would post: URL, headers,
and the `(path, value)` pairs of its JSON-Patch add operations. -/
structure AdoRequest where
  url : String
  headers : List (String × String)
  patchOps : List (String × String)

/-- The acceptance-criteria bullet text of `ado.py` lines 69-72. -/
def acText (acceptance_criteria : List String) : String :=
  String.intercalate "\n"
    ((acceptance_criteria.filter (fun x => x ≠ "" && pyStrip x ≠ "")).map (fun x => "- " ++ x))

/-- Model of `create_work_item` (`ado.py` lines 30-98) up to the network boundary:
validates configuration, maps the type, and builds the request it posts.
The authorization header is derived from `settings.ADO_PAT`; the function
has no credential parameter. -/
def create_work_item (s : Settings) (title : String) (description_md : String)
    (acceptance_criteria : List String) (work_item_type : String) :
    Except PyError AdoRequest :=
  if s.ADO_ORG_URL = "" then .error (.runtimeError "ADO_ORG_URL is missing")
  else if s.ADO_PROJECT = "" then .error (.runtimeError "ADO_PROJECT is missing")
  else if s.ADO_PAT = "" then
    .error (.runtimeError "ADO_PAT is missing (store as Container App secretref)")
  else
    let wit := mapWorkItemType work_item_type
    let ac := acText acceptance_criteria
    .ok
      { url := s.ADO_ORG_URL ++ "/" ++ s.ADO_PROJECT ++ "/_apis/wit/workitems/$" ++ wit
            ++ "?api-version=7.1-preview.3"
        headers := [("Authorization", auth_header_from_pat s.ADO_PAT),
          ("Content-Type", "application/json-patch+json"),
          ("Accept", "application/json")]
        patchOps := [("/fields/System.Title", title),
            ("/fields/System.Description", render_description_html description_md)]
          ++ (if ac ≠ "" then [("/fields/Microsoft.VSTS.Common.AcceptanceCriteria", ac)] else []) }

/-! ### The create endpoint (`main.py` lines 139-182) and Python call binding -/

/-- A parameter of a Python function signature. -/
structure PyParam where
  pname : String
  hasDefault : Bool

/-- Signature of `ado.create_work_item` (keyword-only, no defaults). -/
def create_work_item_params : List PyParam :=
  [⟨"title", false⟩, ⟨"description_md", false⟩, ⟨"acceptance_criteria", false⟩,
   ⟨"work_item_type", false⟩]

/-- Signature of `ado.render_description_html`. -/
def render_description_html_params : List PyParam :=
  [⟨"description_md", false⟩]

/-- Python keyword-argument binding: a supplied name outside the signature,
or a required parameter left unsupplied, raises `TypeError`. -/
def bindKwargs (sig : List PyParam) (supplied : List String) : Except PyError Unit :=
  if supplied.any (fun k => sig.all (fun p => p.pname ≠ k)) then
    .error (.typeError "unexpected keyword argument")
  else if sig.any (fun p => !p.hasDefault && supplied.all (fun k => k ≠ p.pname)) then
    .error (.typeError "missing required argument")
  else .ok ()

/-- Keyword names at the `render_description_html(draft=..., gate=...)` call
site (`main.py` line 167). -/
def renderCallKwargNames : List String := ["draft", "gate"]

/-- Keyword names at the `create_work_item(bearer_token=..., ...)` call site
(`main.py` lines 169-174). -/
def createCallKwargNames : List String :=
  ["bearer_token", "work_item_type", "title", "description_html"]

/-- The check `gate["action"] == "ask_questions_only"` (`main.py` line 150); the key is
always present after gate normalization, so no `KeyError` arises. -/
def gateActionIsAskOnly (gate : Obj) : Bool :=
  match lookupKey "action" gate with
  | some (.str s) => s = "ask_questions_only"
  | _ => false

/-- The JSON body of a create-endpoint response. -/
structure CreateResponse where
  created : Bool
  gate : Obj
  draft : Option Obj

/-- Model of `create_work_item_endpoint` (`main.py` lines 139-182): auth-header check,
gate, early return, draft, question merge, then the two adapter calls whose
keyword arguments are bound against the `ado.py` signatures.  The merged
extra context only influences the opaque oracle prompt and is omitted. -/
def create_work_item_endpoint (authHeader : String) (notes : String)
    (oracleGate oracleDraft : Option String) : Except PyError CreateResponse :=
  if !(pyStartsWith authHeader "Bearer ") then .error (.httpError 401)
  else
    match (soft_gate notes oracleGate).result with
    | .error e => .error e
    | .ok gate =>
      if gateActionIsAskOnly gate then .ok ⟨false, gate, none⟩
      else
        match (generate_work_item_draft notes oracleDraft).result with
        | .error e => .error e
        | .ok draft =>
          let draft := mergeQuestions draft gate
          match bindKwargs render_description_html_params renderCallKwargNames with
          | .error e => .error e
          | .ok _ =>
            match bindKwargs create_work_item_params createCallKwargNames with
            | .error e => .error e
            | .ok _ => .ok ⟨true, gate, some draft⟩

/-! ### Lemmas about the dict operations -/

theorem lookupKey_setKey_self (k : String) (v : JVal) (l : Obj) :
    lookupKey k (setKey k v l) = some v := by
  induction l with
  | nil => simp [setKey, lookupKey]
  | cons p rest ih =>
      obtain ⟨k2, w⟩ := p
      by_cases h : k2 = k
      · simp [setKey, h, lookupKey]
      · simp [setKey, h, lookupKey, ih]

theorem lookupKey_setKey_ne {k k2 : String} (h : k2 ≠ k) (v : JVal) (l : Obj) :
    lookupKey k2 (setKey k v l) = lookupKey k2 l := by
  induction l with
  | nil => simp [setKey, lookupKey, Ne.symm h]
  | cons p rest ih =>
      obtain ⟨k3, w⟩ := p
      by_cases h3 : k3 = k
      · subst h3
        simp [setKey, lookupKey, Ne.symm h]
      · simp only [setKey, if_neg h3]
        by_cases h2 : k3 = k2
        · simp [lookupKey, h2]
        · simp [lookupKey, h2, ih]

theorem setKey_of_lookup {k : String} {v : JVal} {l : Obj}
    (h : lookupKey k l = some v) : setKey k v l = l := by
  induction l with
  | nil => simp [lookupKey] at h
  | cons p rest ih =>
      obtain ⟨k2, w⟩ := p
      by_cases hk : k2 = k
      · simp only [lookupKey, if_pos hk, Option.some.injEq] at h
        simp [setKey, hk, h]
      · simp only [lookupKey, if_neg hk] at h
        simp [setKey, hk, ih h]

theorem lookupKey_append_left {k : String} {v : JVal} {l : Obj}
    (h : lookupKey k l = some v) (l2 : Obj) : lookupKey k (l ++ l2) = some v := by
  induction l with
  | nil => simp [lookupKey] at h
  | cons p rest ih =>
      obtain ⟨k2, w⟩ := p
      by_cases hk : k2 = k
      · simp only [lookupKey, if_pos hk, Option.some.injEq] at h
        simp [lookupKey, hk, h]
      · simp only [lookupKey, if_neg hk] at h
        simp [lookupKey, hk, ih h]

theorem lookupKey_append_right {k : String} {l : Obj}
    (h : lookupKey k l = none) (l2 : Obj) : lookupKey k (l ++ l2) = lookupKey k l2 := by
  induction l with
  | nil => simp
  | cons p rest ih =>
      obtain ⟨k2, w⟩ := p
      by_cases hk : k2 = k
      · simp [lookupKey, hk] at h
      · simp only [lookupKey, if_neg hk] at h
        simp [lookupKey, hk, ih h]

theorem setdefault_of_isSome {k : String} {l : Obj} (v : JVal)
    (h : (lookupKey k l).isSome) : setdefault k v l = l := by
  simp [setdefault, h]

theorem lookupKey_setdefault_self (k : String) (v : JVal) (l : Obj) :
    lookupKey k (setdefault k v l) = some ((lookupKey k l).getD v) := by
  unfold setdefault
  cases h : lookupKey k l with
  | some w => simp [h]
  | none =>
      simp only [h, Option.isSome_none, Bool.false_eq_true, if_false, Option.getD_none]
      rw [lookupKey_append_right h]
      simp [lookupKey]

theorem lookupKey_setdefault_ne {k k2 : String} (h : k2 ≠ k) (v : JVal) (l : Obj) :
    lookupKey k2 (setdefault k v l) = lookupKey k2 l := by
  unfold setdefault
  split
  · rfl
  · cases h2 : lookupKey k2 l with
    | some w => rw [lookupKey_append_left h2]
    | none =>
        rw [lookupKey_append_right h2]
        simp [lookupKey, Ne.symm h]

theorem lookupKey_setdefault_of_some {k k2 : String} {v : JVal} {l : Obj}
    (h : lookupKey k l = some v) (w : JVal) :
    lookupKey k (setdefault k2 w l) = some v := by
  unfold setdefault
  split
  · exact h
  · exact lookupKey_append_left h _

theorem isSome_setdefault_self (k : String) (v : JVal) (l : Obj) :
    (lookupKey k (setdefault k v l)).isSome := by
  rw [lookupKey_setdefault_self]; rfl

theorem isSome_setdefault {k k2 : String} {l : Obj} (v : JVal)
    (h : (lookupKey k l).isSome) : (lookupKey k (setdefault k2 v l)).isSome := by
  obtain ⟨w, hw⟩ := Option.isSome_iff_exists.mp h
  rw [lookupKey_setdefault_of_some hw]; rfl

theorem isSome_setKey {k k2 : String} {l : Obj} (v : JVal)
    (h : (lookupKey k l).isSome) : (lookupKey k (setKey k2 v l)).isSome := by
  by_cases hk : k = k2
  · subst hk; rw [lookupKey_setKey_self]; rfl
  · rw [lookupKey_setKey_ne hk]; exact h

theorem lookupKey_coerceListField_ne {k k2 : String} (h : k ≠ k2) (l : Obj) :
    lookupKey k (coerceListField k2 l) = lookupKey k l := by
  unfold coerceListField
  split
  · rfl
  · exact lookupKey_setKey_ne h _ l

theorem isSome_coerceListField {k k2 : String} {l : Obj}
    (h : (lookupKey k l).isSome) : (lookupKey k (coerceListField k2 l)).isSome := by
  unfold coerceListField
  split
  · exact h
  · exact isSome_setKey _ h

theorem isArr_coerceListField_self (k : String) (l : Obj) :
    (pyGet k (coerceListField k l)).isArr := by
  unfold coerceListField
  split
  · assumption
  · unfold pyGet
    rw [lookupKey_setKey_self]
    rfl

theorem isArr_coerceListField_ne {k k2 : String} (h : k ≠ k2) {l : Obj}
    (ha : (pyGet k l).isArr) : (pyGet k (coerceListField k2 l)).isArr := by
  unfold pyGet at ha ⊢
  rw [lookupKey_coerceListField_ne h]
  exact ha

/-- The clamp lands in the unit interval. -/
theorem clamp01_mem (q : ℚ) : 0 ≤ clamp01 q ∧ clamp01 q ≤ 1 := by
  refine ⟨le_max_left _ _, max_le (by norm_num) (min_le_left _ _)⟩

/-- A value already in the unit interval is fixed by the clamp. -/
theorem clamp01_of_mem {q : ℚ} (h0 : 0 ≤ q) (h1 : q ≤ 1) : clamp01 q = q := by
  unfold clamp01
  rw [min_eq_right h1, max_eq_right h0]

/-- Clamping is idempotent. -/
theorem clamp01_clamp01 (q : ℚ) : clamp01 (clamp01 q) = clamp01 q :=
  clamp01_of_mem (clamp01_mem q).1 (clamp01_mem q).2

/-! ### Lemmas about the normalization stages -/

theorem applyDefaults_cons (k : String) (v : JVal) (ds : List (String × JVal)) (l : Obj) :
    applyDefaults ((k, v) :: ds) l = applyDefaults ds (setdefault k v l) := rfl

theorem applyDefaults_append (ds1 ds2 : List (String × JVal)) (l : Obj) :
    applyDefaults (ds1 ++ ds2) l = applyDefaults ds2 (applyDefaults ds1 l) :=
  List.foldl_append ..

theorem isSome_applyDefaults_of {k : String} {l : Obj} (ds : List (String × JVal))
    (h : (lookupKey k l).isSome) : (lookupKey k (applyDefaults ds l)).isSome := by
  induction ds generalizing l with
  | nil => exact h
  | cons kv ds ih =>
      obtain ⟨k2, v2⟩ := kv
      rw [applyDefaults_cons]
      exact ih (isSome_setdefault _ h)

theorem lookupKey_applyDefaults_of_some {k : String} {w : JVal} {l : Obj}
    (ds : List (String × JVal)) (h : lookupKey k l = some w) :
    lookupKey k (applyDefaults ds l) = some w := by
  induction ds generalizing l with
  | nil => exact h
  | cons kv ds ih =>
      obtain ⟨k2, v2⟩ := kv
      rw [applyDefaults_cons]
      exact ih (lookupKey_setdefault_of_some h _)

theorem isSome_applyDefaults_mem {k : String} {ds : List (String × JVal)} (l : Obj)
    (h : k ∈ ds.map Prod.fst) : (lookupKey k (applyDefaults ds l)).isSome := by
  induction ds generalizing l with
  | nil => simp at h
  | cons kv ds ih =>
      obtain ⟨k2, v2⟩ := kv
      rw [applyDefaults_cons]
      rcases List.mem_cons.mp h with h1 | h2
      · subst h1
        exact isSome_applyDefaults_of ds (isSome_setdefault_self _ _ _)
      · exact ih _ h2

theorem lookupKey_applyDefaults_not_mem {k : String} {ds : List (String × JVal)} (l : Obj)
    (h : k ∉ ds.map Prod.fst) : lookupKey k (applyDefaults ds l) = lookupKey k l := by
  induction ds generalizing l with
  | nil => rfl
  | cons kv ds ih =>
      obtain ⟨k2, v2⟩ := kv
      simp only [List.map_cons, List.mem_cons, not_or] at h
      rw [applyDefaults_cons, ih _ h.2, lookupKey_setdefault_ne h.1]

theorem applyDefaults_of_isSome {ds : List (String × JVal)} {l : Obj}
    (h : ∀ k ∈ ds.map Prod.fst, (lookupKey k l).isSome) : applyDefaults ds l = l := by
  induction ds with
  | nil => rfl
  | cons kv ds ih =>
      obtain ⟨k2, v2⟩ := kv
      rw [applyDefaults_cons, setdefault_of_isSome _ (h k2 (by simp))]
      exact ih fun k hk => h k (by simp [hk])

theorem coerceListFields_cons (k : String) (ks : List String) (l : Obj) :
    coerceListFields (k :: ks) l = coerceListFields ks (coerceListField k l) := rfl

theorem coerceListField_of_isArr {k : String} {l : Obj} (h : (pyGet k l).isArr) :
    coerceListField k l = l := by
  simp [coerceListField, h]

theorem isArr_coerceListField_any {k k2 : String} {l : Obj}
    (h : (pyGet k l).isArr) : (pyGet k (coerceListField k2 l)).isArr := by
  by_cases hk : k = k2
  · subst hk; exact isArr_coerceListField_self k l
  · exact isArr_coerceListField_ne hk h

theorem lookupKey_coerceListFields_not_mem {k : String} {ks : List String} (l : Obj)
    (h : k ∉ ks) : lookupKey k (coerceListFields ks l) = lookupKey k l := by
  induction ks generalizing l with
  | nil => rfl
  | cons k2 ks ih =>
      simp only [List.mem_cons, not_or] at h
      rw [coerceListFields_cons, ih _ h.2, lookupKey_coerceListField_ne h.1]

theorem isSome_coerceListFields {k : String} {ks : List String} {l : Obj}
    (h : (lookupKey k l).isSome) : (lookupKey k (coerceListFields ks l)).isSome := by
  induction ks generalizing l with
  | nil => exact h
  | cons k2 ks ih =>
      rw [coerceListFields_cons]
      exact ih (isSome_coerceListField h)

theorem isArr_coerceListFields_of {k : String} {ks : List String} {l : Obj}
    (h : (pyGet k l).isArr) : (pyGet k (coerceListFields ks l)).isArr := by
  induction ks generalizing l with
  | nil => exact h
  | cons k2 ks ih =>
      rw [coerceListFields_cons]
      exact ih (isArr_coerceListField_any h)

theorem isArr_coerceListFields_mem {k : String} {ks : List String} (l : Obj)
    (h : k ∈ ks) : (pyGet k (coerceListFields ks l)).isArr := by
  induction ks generalizing l with
  | nil => simp at h
  | cons k2 ks ih =>
      rw [coerceListFields_cons]
      rcases List.mem_cons.mp h with h1 | h2
      · subst h1
        exact isArr_coerceListFields_of (isArr_coerceListField_self k l)
      · exact ih _ h2

theorem coerceListFields_of_isArr {ks : List String} {l : Obj}
    (h : ∀ k ∈ ks, (pyGet k l).isArr) : coerceListFields ks l = l := by
  induction ks with
  | nil => rfl
  | cons k2 ks ih =>
      rw [coerceListFields_cons, coerceListField_of_isArr (h k2 (by simp))]
      exact ih fun k hk => h k (by simp [hk])

theorem lookupKey_normDraftConfidence_ne {k : String} (h : k ≠ "confidence") (l : Obj) :
    lookupKey k (normDraftConfidence l) = lookupKey k l := by
  unfold normDraftConfidence
  split <;> exact lookupKey_setKey_ne h _ l

theorem isSome_normDraftConfidence {k : String} {l : Obj}
    (h : (lookupKey k l).isSome) : (lookupKey k (normDraftConfidence l)).isSome := by
  unfold normDraftConfidence
  split <;> exact isSome_setKey _ h

theorem lookupKey_normDraftConfidence_eq (l : Obj) :
    lookupKey "confidence" (normDraftConfidence l) =
      some (.num (match pyFloat ((lookupKey "confidence" l).getD (.num (1/2))) with
                  | some c => clamp01 c
                  | none => 1/2)) := by
  unfold normDraftConfidence
  cases hf : pyFloat ((lookupKey "confidence" l).getD (.num (1/2))) with
  | some c => simp only [hf, lookupKey_setKey_self]
  | none => simp only [hf, lookupKey_setKey_self]

theorem normDraftConfidence_of {l : Obj} {q : ℚ}
    (h : lookupKey "confidence" l = some (.num q)) (hc : clamp01 q = q) :
    normDraftConfidence l = l := by
  unfold normDraftConfidence
  rw [h]
  show setKey "confidence" (.num (clamp01 q)) l = l
  rw [hc]
  exact setKey_of_lookup h

theorem lookupKey_normDraftTitle_ne {k : String} (h : k ≠ "title") (l : Obj) :
    lookupKey k (normDraftTitle l) = lookupKey k l := by
  unfold normDraftTitle
  split
  · exact lookupKey_setKey_ne h _ l
  · rfl

theorem isSome_normDraftTitle {k : String} {l : Obj}
    (h : (lookupKey k l).isSome) : (lookupKey k (normDraftTitle l)).isSome := by
  unfold normDraftTitle
  split
  · exact isSome_setKey _ h
  · exact h

theorem title_nonblank_normDraftTitle (l : Obj) :
    pyStrip (pyStr ((lookupKey "title" (normDraftTitle l)).getD (.str ""))) ≠ "" := by
  unfold normDraftTitle
  split
  · rw [lookupKey_setKey_self]
    intro hcontra
    simp only [Option.getD_some, pyStr] at hcontra
    exact absurd hcontra (by decide)
  · assumption

theorem normDraftTitle_of {l : Obj}
    (h : pyStrip (pyStr ((lookupKey "title" l).getD (.str ""))) ≠ "") :
    normDraftTitle l = l := by
  unfold normDraftTitle
  rw [if_neg h]

theorem lookupKey_normGateConfidence_ne {k : String} (h : k ≠ "confidence") (l : Obj) :
    lookupKey k (normGateConfidence l) = lookupKey k l := by
  unfold normGateConfidence
  split
  · split <;> exact lookupKey_setKey_ne h _ l
  · exact lookupKey_setKey_ne h _ l

theorem isSome_normGateConfidence {k : String} {l : Obj}
    (h : (lookupKey k l).isSome) : (lookupKey k (normGateConfidence l)).isSome := by
  unfold normGateConfidence
  split
  · split <;> exact isSome_setKey _ h
  · exact isSome_setKey _ h

theorem lookupKey_normGateConfidence_eq {l : Obj} {v : JVal}
    (h : lookupKey "confidence" l = some v) :
    lookupKey "confidence" (normGateConfidence l) =
      some (.num (match pyFloat v with
                  | some c => clamp01 c
                  | none => 3/5)) := by
  unfold normGateConfidence
  simp only [h]
  cases hf : pyFloat v with
  | some c => simp only [hf, lookupKey_setKey_self]
  | none => simp only [hf, lookupKey_setKey_self]

theorem normGateConfidence_of {l : Obj} {q : ℚ}
    (h : lookupKey "confidence" l = some (.num q)) (hc : clamp01 q = q) :
    normGateConfidence l = l := by
  unfold normGateConfidence
  rw [h]
  show setKey "confidence" (.num (clamp01 q)) l = l
  rw [hc]
  exact setKey_of_lookup h

theorem lookupKey_normGateQuestions_ne {k : String} (h : k ≠ "questions") (l : Obj) :
    lookupKey k (normGateQuestions l) = lookupKey k l := by
  unfold normGateQuestions
  split
  · rfl
  · exact lookupKey_setKey_ne h _ l

theorem isSome_normGateQuestions {k : String} {l : Obj}
    (h : (lookupKey k l).isSome) : (lookupKey k (normGateQuestions l)).isSome := by
  unfold normGateQuestions
  split
  · exact h
  · exact isSome_setKey _ h

theorem isArr_normGateQuestions (l : Obj) :
    (pyGet "questions" (normGateQuestions l)).isArr := by
  unfold normGateQuestions
  split
  · assumption
  · unfold pyGet
    rw [lookupKey_setKey_self]
    rfl

theorem normGateQuestions_of {l : Obj} (h : (pyGet "questions" l).isArr) :
    normGateQuestions l = l := by
  simp [normGateQuestions, h]

theorem lookupKey_normGateAssumptions_ne {k : String} (h : k ≠ "assumptions") (l : Obj) :
    lookupKey k (normGateAssumptions l) = lookupKey k l := by
  unfold normGateAssumptions
  split
  · rfl
  · exact lookupKey_setKey_ne h _ l

theorem isSome_normGateAssumptions {k : String} {l : Obj}
    (h : (lookupKey k l).isSome) : (lookupKey k (normGateAssumptions l)).isSome := by
  unfold normGateAssumptions
  split
  · exact h
  · exact isSome_setKey _ h

theorem isArr_normGateAssumptions (l : Obj) :
    (pyGet "assumptions" (normGateAssumptions l)).isArr := by
  unfold normGateAssumptions
  split
  · assumption
  · unfold pyGet
    rw [lookupKey_setKey_self]
    rfl

theorem normGateAssumptions_of {l : Obj} (h : (pyGet "assumptions" l).isArr) :
    normGateAssumptions l = l := by
  simp [normGateAssumptions, h]

theorem isArr_pyGet_of_lookupKey {k : String} {l l2 : Obj}
    (h : lookupKey k l2 = lookupKey k l) (ha : (pyGet k l).isArr) :
    (pyGet k l2).isArr := by
  unfold pyGet at ha ⊢
  rw [h]
  exact ha

/-! ### Idempotence of the Contract Normalizer -/

theorem isArr_after_conf_title {k : String} {l : Obj} (h1 : k ≠ "confidence")
    (h2 : k ≠ "title") (ha : (pyGet k l).isArr) :
    (pyGet k (normDraftTitle (normDraftConfidence l))).isArr := by
  apply isArr_pyGet_of_lookupKey (lookupKey_normDraftTitle_ne h2 _)
  exact isArr_pyGet_of_lookupKey (lookupKey_normDraftConfidence_ne h1 _) ha

theorem draftNormalized_normalizeDraft (l : Obj) : DraftNormalized (normalizeDraft l) := by
  unfold normalizeDraft
  refine ⟨?_, ?_, ?_, ?_⟩
  · intro k hk
    exact isSome_normDraftTitle (isSome_normDraftConfidence
      (isSome_coerceListFields (isSome_applyDefaults_mem l hk)))
  · intro k hk
    fin_cases hk <;>
      exact isArr_after_conf_title (by decide) (by decide)
        (isArr_coerceListFields_mem _ (by decide))
  · rw [lookupKey_normDraftTitle_ne (by decide), lookupKey_normDraftConfidence_eq]
    cases hf : pyFloat ((lookupKey "confidence"
        (coerceListFields draftListFields (applyDefaults draftDefaults l))).getD (.num (1/2))) with
    | some c => exact ⟨clamp01 c, rfl, clamp01_clamp01 c⟩
    | none => exact ⟨1/2, rfl, clamp01_of_mem (by norm_num) (by norm_num)⟩
  · exact title_nonblank_normDraftTitle _

theorem normalizeDraft_of_normalized {l : Obj} (h : DraftNormalized l) :
    normalizeDraft l = l := by
  obtain ⟨hkeys, harr, ⟨q, hq, hc⟩, htitle⟩ := h
  unfold normalizeDraft
  rw [applyDefaults_of_isSome hkeys, coerceListFields_of_isArr harr,
    normDraftConfidence_of hq hc, normDraftTitle_of htitle]

theorem gateNormalized_normalizeGate (l : Obj) : GateNormalized (normalizeGate l) := by
  unfold normalizeGate
  refine ⟨?_, ?_, ?_, ?_⟩
  · intro k hk
    exact isSome_normGateAssumptions (isSome_normGateQuestions
      (isSome_normGateConfidence (isSome_applyDefaults_mem l hk)))
  · have hs : (lookupKey "confidence" (applyDefaults gateDefaults l)).isSome :=
      isSome_applyDefaults_mem l (by decide)
    obtain ⟨v, hv⟩ := Option.isSome_iff_exists.mp hs
    rw [lookupKey_normGateAssumptions_ne (by decide),
      lookupKey_normGateQuestions_ne (by decide), lookupKey_normGateConfidence_eq hv]
    cases hf : pyFloat v with
    | some c => exact ⟨clamp01 c, rfl, clamp01_clamp01 c⟩
    | none => exact ⟨3/5, rfl, clamp01_of_mem (by norm_num) (by norm_num)⟩
  · exact isArr_pyGet_of_lookupKey (lookupKey_normGateAssumptions_ne (by decide) _)
      (isArr_normGateQuestions _)
  · exact isArr_normGateAssumptions _

theorem normalizeGate_of_normalized {l : Obj} (h : GateNormalized l) :
    normalizeGate l = l := by
  obtain ⟨hkeys, ⟨q, hq, hc⟩, hq1, ha1⟩ := h
  unfold normalizeGate
  rw [applyDefaults_of_isSome hkeys, normGateConfidence_of hq hc,
    normGateQuestions_of hq1, normGateAssumptions_of ha1]

/-! ### Characterization of the normalized confidence and action fields -/

theorem applyDefaults_nil (l : Obj) : applyDefaults [] l = l := rfl

theorem draftDefaults_split : draftDefaults =
    [("title", .str "New Work Item"), ("description", .str ""), ("valueStatement", .str ""),
     ("acceptanceCriteria", .arr []), ("tasks", .arr []), ("assumptions", .arr []),
     ("dependencies", .arr []), ("questions", .arr [])] ++ [("confidence", .num (1/2))] := rfl

theorem gateDefaults_split : gateDefaults =
    [("action", .str "create_draft"),
     ("messageToUser", .str "I created a draft work item."),
     ("questions", .arr []), ("assumptions", .arr [])] ++ [("confidence", .num (3/5))] := rfl

theorem lookupKey_confidence_normalizeDraft (l : Obj) :
    lookupKey "confidence" (normalizeDraft l) =
      some (.num (match pyFloat ((lookupKey "confidence" l).getD (.num (1/2))) with
                  | some c => clamp01 c
                  | none => 1/2)) := by
  unfold normalizeDraft
  rw [lookupKey_normDraftTitle_ne (by decide), lookupKey_normDraftConfidence_eq]
  have h1 : lookupKey "confidence"
      (coerceListFields draftListFields (applyDefaults draftDefaults l)) =
      some ((lookupKey "confidence" l).getD (.num (1/2))) := by
    rw [lookupKey_coerceListFields_not_mem _ (by decide), draftDefaults_split,
      applyDefaults_append, applyDefaults_cons, applyDefaults_nil,
      lookupKey_setdefault_self, lookupKey_applyDefaults_not_mem _ (by decide)]
  rw [h1, Option.getD_some]

theorem lookupKey_confidence_normalizeGate (l : Obj) :
    lookupKey "confidence" (normalizeGate l) =
      some (.num (match pyFloat ((lookupKey "confidence" l).getD (.num (3/5))) with
                  | some c => clamp01 c
                  | none => 3/5)) := by
  unfold normalizeGate
  have h1 : lookupKey "confidence" (applyDefaults gateDefaults l) =
      some ((lookupKey "confidence" l).getD (.num (3/5))) := by
    rw [gateDefaults_split, applyDefaults_append, applyDefaults_cons, applyDefaults_nil,
      lookupKey_setdefault_self, lookupKey_applyDefaults_not_mem _ (by decide)]
  rw [lookupKey_normGateAssumptions_ne (by decide),
    lookupKey_normGateQuestions_ne (by decide), lookupKey_normGateConfidence_eq h1]

theorem lookupKey_action_normalizeGate (l : Obj) :
    lookupKey "action" (normalizeGate l) =
      some ((lookupKey "action" l).getD (.str "create_draft")) := by
  unfold normalizeGate
  rw [lookupKey_normGateAssumptions_ne (by decide),
    lookupKey_normGateQuestions_ne (by decide),
    lookupKey_normGateConfidence_ne (by decide)]
  have h2 : gateDefaults = ("action", JVal.str "create_draft") ::
      [("messageToUser", .str "I created a draft work item."),
       ("questions", .arr []), ("assumptions", .arr []), ("confidence", .num (3/5))] := rfl
  rw [h2, applyDefaults_cons, lookupKey_applyDefaults_not_mem _ (by decide),
    lookupKey_setdefault_self]

/-! ### The claims -/

/-- C1: the Contract Normalizer is idempotent — re-applying the
normalization (defaults inserted, non-list fields coerced, confidence
clamped, title defaulted) to its own output is a no-op, on both the draft
path (`llm.py` 115-137) and the gate path (`llm_gate.py` 92-106). -/
theorem contract_normalizer_idempotent (l : Obj) :
    normalizeDraft (normalizeDraft l) = normalizeDraft l ∧
    normalizeGate (normalizeGate l) = normalizeGate l :=
  ⟨normalizeDraft_of_normalized (draftNormalized_normalizeDraft l),
   normalizeGate_of_normalized (gateNormalized_normalizeGate l)⟩

/-- C2: after normalization the confidence field is a number in `[0, 1]` on
both paths, for any oracle-supplied value; when the float coercion fails the
fixed default is substituted (0.5 = 1/2 on the draft path, 0.6 = 3/5 on the
gate path), and a missing confidence also ends at the default. -/
theorem confidence_normalized_in_range (l : Obj) :
    (∃ q, lookupKey "confidence" (normalizeDraft l) = some (.num q) ∧ 0 ≤ q ∧ q ≤ 1) ∧
    (∃ q, lookupKey "confidence" (normalizeGate l) = some (.num q) ∧ 0 ≤ q ∧ q ≤ 1) ∧
    (∀ v, lookupKey "confidence" l = some v → pyFloat v = none →
      lookupKey "confidence" (normalizeDraft l) = some (.num (1/2)) ∧
      lookupKey "confidence" (normalizeGate l) = some (.num (3/5))) ∧
    (lookupKey "confidence" l = none →
      lookupKey "confidence" (normalizeDraft l) = some (.num (1/2)) ∧
      lookupKey "confidence" (normalizeGate l) = some (.num (3/5))) := by
  refine ⟨?_, ?_, ?_, ?_⟩
  · rw [lookupKey_confidence_normalizeDraft]
    cases hf : pyFloat ((lookupKey "confidence" l).getD (.num (1/2))) with
    | some c => exact ⟨clamp01 c, rfl, (clamp01_mem c).1, (clamp01_mem c).2⟩
    | none => exact ⟨1/2, rfl, by norm_num, by norm_num⟩
  · rw [lookupKey_confidence_normalizeGate]
    cases hf : pyFloat ((lookupKey "confidence" l).getD (.num (3/5))) with
    | some c => exact ⟨clamp01 c, rfl, (clamp01_mem c).1, (clamp01_mem c).2⟩
    | none => exact ⟨3/5, rfl, by norm_num, by norm_num⟩
  · intro v hv hf
    constructor
    · rw [lookupKey_confidence_normalizeDraft, hv, Option.getD_some, hf]
    · rw [lookupKey_confidence_normalizeGate, hv, Option.getD_some, hf]
  · intro hv
    constructor
    · rw [lookupKey_confidence_normalizeDraft, hv, Option.getD_none]
      simp only [pyFloat]
      rw [clamp01_of_mem (by norm_num) (by norm_num)]
    · rw [lookupKey_confidence_normalizeGate, hv, Option.getD_none]
      simp only [pyFloat]
      rw [clamp01_of_mem (by norm_num) (by norm_num)]

/-- Witness for C2 at the concrete input `\x7b"confidence": []\x7d`, whose
float coercion fails on both paths. -/
theorem confidence_normalized_in_range_witness :
    lookupKey "confidence" (normalizeDraft [("confidence", JVal.arr [])]) =
      some (.num (1/2)) ∧
    lookupKey "confidence" (normalizeGate [("confidence", JVal.arr [])]) =
      some (.num (3/5)) :=
  (confidence_normalized_in_range [("confidence", JVal.arr [])]).2.2.1 (JVal.arr []) rfl rfl

/-- C3 counterexample: an oracle-supplied action `"banana"` survives gate
normalization unchanged — `setdefault` only fills a missing action, so an
invalid third value is not corrected to `create_draft`. -/
theorem gate_action_invalid_survives_counterexample :
    lookupKey "action" (normalizeGate [("action", JVal.str "banana")]) =
      some (.str "banana") ∧
    JVal.str "banana" ≠ JVal.str "create_draft" ∧
    JVal.str "banana" ≠ JVal.str "ask_questions_only" := by
  refine ⟨?_, by simp, by simp⟩
  rw [lookupKey_action_normalizeGate]
  rfl

/-- C3 (amended): the gate normalization fills a missing action with
`create_draft`, but a present action value — valid or not — passes through
unchanged. -/
theorem gate_action_default_or_passthrough (l : Obj) :
    (lookupKey "action" l = none →
      lookupKey "action" (normalizeGate l) = some (.str "create_draft")) ∧
    (∀ v, lookupKey "action" l = some v →
      lookupKey "action" (normalizeGate l) = some v) := by
  constructor
  · intro h
    rw [lookupKey_action_normalizeGate, h]
    rfl
  · intro v h
    rw [lookupKey_action_normalizeGate, h]
    rfl

/-- Witness for the amended C3 on a missing and on a present action. -/
theorem gate_action_default_or_passthrough_witness :
    lookupKey "action" (normalizeGate []) = some (.str "create_draft") ∧
    lookupKey "action" (normalizeGate [("action", JVal.str "x")]) = some (.str "x") :=
  ⟨(gate_action_default_or_passthrough []).1 rfl,
   (gate_action_default_or_passthrough [("action", JVal.str "x")]).2 _ rfl⟩

/-- C4: notes whose stripped form is shorter than 2 characters make
`soft_gate` return the fixed `ask_questions_only` result with confidence
exactly 0.2 = 1/5, one fixed question, no assumptions and the fixed
message, without invoking the oracle. -/
theorem gate_short_notes_short_circuit (notes : String) (oracle : Option String)
    (h : (pyStrip notes).length < 2) :
    soft_gate notes oracle =
      ⟨.ok [("action", .str "ask_questions_only"),
            ("messageToUser",
              .str "Please provide at least a short phrase describing the work item."),
            ("questions", .arr [.str "What do you want to build/fix/change?"]),
            ("assumptions", .arr []),
            ("confidence", .num (1/5))], false⟩ := by
  unfold soft_gate
  rw [if_pos h]
  rfl

/-- Witness for C4 at notes `" x "` with an oracle that would answer
`create_draft` if it were consulted. -/
theorem gate_short_notes_short_circuit_witness :
    soft_gate " x " (some "\x7b\"action\": \"create_draft\"\x7d") =
      ⟨.ok [("action", .str "ask_questions_only"),
            ("messageToUser",
              .str "Please provide at least a short phrase describing the work item."),
            ("questions", .arr [.str "What do you want to build/fix/change?"]),
            ("assumptions", .arr []),
            ("confidence", .num (1/5))], false⟩ :=
  gate_short_notes_short_circuit " x " _ (by decide)

/-- C5: notes that are empty after stripping make the Draft Generator return
the static canned draft — literal title `"New Work Item"`, confidence
exactly 0.2 = 1/5 — without invoking the oracle. -/
theorem draft_empty_notes_canned (notes : String) (oracle : Option String)
    (h : pyStrip notes = "") :
    generate_work_item_draft notes oracle = ⟨.ok cannedDraft, false⟩ ∧
    lookupKey "title" cannedDraft = some (.str "New Work Item") ∧
    lookupKey "confidence" cannedDraft = some (.num (1/5)) := by
  refine ⟨?_, rfl, rfl⟩
  unfold generate_work_item_draft
  rw [if_pos h]

/-- Witness for C5 at whitespace-only notes with an oracle that would return
a valid draft if it were consulted. -/
theorem draft_empty_notes_canned_witness :
    generate_work_item_draft "   " (some "\x7b\"title\": \"T\"\x7d") =
      ⟨.ok cannedDraft, false⟩ ∧
    lookupKey "title" cannedDraft = some (.str "New Work Item") ∧
    lookupKey "confidence" cannedDraft = some (.num (1/5)) :=
  draft_empty_notes_canned "   " _ (by decide)

/-- C6: in the question-merge rule, a draft with a non-empty questions list
keeps exactly its own questions, and a draft with an empty questions list
takes the gate's non-empty questions verbatim, in order. -/
theorem merge_questions_rule (draft gate : Obj) (qd qg : List JVal)
    (hd : lookupKey "questions" draft = some (.arr qd))
    (hg : lookupKey "questions" gate = some (.arr qg)) :
    (qd ≠ [] →
      lookupKey "questions" (mergeQuestions draft gate) = some (.arr qd)) ∧
    (qd = [] → qg ≠ [] →
      lookupKey "questions" (mergeQuestions draft gate) = some (.arr qg)) := by
  have hgd : pyGet "questions" draft = .arr qd := by
    unfold pyGet; rw [hd]; rfl
  have hgg : pyGet "questions" gate = .arr qg := by
    unfold pyGet; rw [hg]; rfl
  constructor
  · intro hne
    unfold mergeQuestions
    rw [hgd, hgg]
    have ht : pyTruthy (JVal.arr qd) = true := by
      simp [pyTruthy, hne]
    rw [ht]
    simp only [Bool.not_true, Bool.false_and, Bool.false_eq_true, if_false]
    exact hd
  · intro he hne
    subst he
    have htd : pyTruthy (pyGet "questions" draft) = false := by
      rw [hgd]; rfl
    have htg : pyTruthy (pyGet "questions" gate) = true := by
      rw [hgg]; simp [pyTruthy, hne]
    have hcond : (!false && true) = true := by decide
    unfold mergeQuestions
    rw [htd, htg, hgg, if_pos hcond, lookupKey_setKey_self]

/-- Witness for C6 on both sides of the rule at concrete drafts and gates. -/
theorem merge_questions_rule_witness :
    lookupKey "questions" (mergeQuestions [("questions", JVal.arr [JVal.str "d"])]
      [("questions", JVal.arr [JVal.str "g"])]) = some (.arr [.str "d"]) ∧
    lookupKey "questions" (mergeQuestions [("questions", JVal.arr [])]
      [("questions", JVal.arr [JVal.str "g"])]) = some (.arr [.str "g"]) :=
  ⟨(merge_questions_rule [("questions", JVal.arr [JVal.str "d"])]
      [("questions", JVal.arr [JVal.str "g"])] [JVal.str "d"] [JVal.str "g"]
      rfl rfl).1 (by simp),
   (merge_questions_rule [("questions", JVal.arr [])]
      [("questions", JVal.arr [JVal.str "g"])] [] [JVal.str "g"]
      rfl rfl).2 rfl (by simp)⟩

/-- C7 counterexample: for the payload `"xx\x7b\x7d"` the brace-delimited
substring `"\x7b\x7d"` parses as JSON, yet the draft path fails — it uses
plain `json.loads` with no substring extraction (`llm.py` 110-113). -/
theorem draft_no_substring_recovery_counterexample :
    braceSubstring "xx\x7b\x7d" = some "\x7b\x7d" ∧
    (jsonParse "\x7b\x7d").isSome = true ∧
    (generate_work_item_draft "fix login" (some "xx\x7b\x7d")).result =
      .error (.runtimeError "Model returned invalid JSON") :=
  ⟨rfl, rfl, rfl⟩

/-- C7 (amended): on the draft path with non-empty notes, the generator
raises exactly when the payload is empty after stripping or the strict JSON
parse fails (no brace-substring recovery is attempted); every payload whose
strict parse yields an object succeeds with the normalized object. -/
theorem draft_contract_error_iff (notes : String) (oracle : Option String)
    (hn : pyStrip notes ≠ "") :
    (pyStrip (oracle.getD "") = "" →
      (generate_work_item_draft notes oracle).result =
        .error (.runtimeError "Model returned empty response")) ∧
    (pyStrip (oracle.getD "") ≠ "" → jsonParse (pyStrip (oracle.getD "")) = none →
      (generate_work_item_draft notes oracle).result =
        .error (.runtimeError "Model returned invalid JSON")) ∧
    (∀ fields, jsonParse (pyStrip (oracle.getD "")) = some (.obj fields) →
      (generate_work_item_draft notes oracle).result = .ok (normalizeDraft fields)) := by
  unfold generate_work_item_draft
  rw [if_neg hn]
  refine ⟨?_, ?_, ?_⟩
  · intro h
    rw [if_pos h]
  · intro h1 h2
    rw [if_neg h1, h2]
  · intro fields h
    have hr : pyStrip (oracle.getD "") ≠ "" := by
      intro he
      rw [he] at h
      have hnone : jsonParse "" = none := rfl
      rw [hnone] at h
      exact Option.noConfusion h
    rw [if_neg hr, h]

/-- Witness for the amended C7: an empty payload, a garbage payload, and a
strictly parsing object payload, each at concrete inputs. -/
theorem draft_contract_error_iff_witness :
    (generate_work_item_draft "fix login" none).result =
      .error (.runtimeError "Model returned empty response") ∧
    (generate_work_item_draft "fix login" (some "xy")).result =
      .error (.runtimeError "Model returned invalid JSON") ∧
    (generate_work_item_draft "fix login" (some "\x7b\"title\": \"T\"\x7d")).result =
      .ok (normalizeDraft [("title", JVal.str "T")]) :=
  ⟨(draft_contract_error_iff "fix login" none (by decide)).1 rfl,
   (draft_contract_error_iff "fix login" (some "xy") (by decide)).2.1 (by decide) rfl,
   (draft_contract_error_iff "fix login" (some "\x7b\"title\": \"T\"\x7d")
     (by decide)).2.2 _ rfl⟩

/-- C9: the adapter maps any letter-casing of `"PBI"` (after stripping) to
the provider type `"Product Backlog Item"`, and the other five tags pass
through unchanged (`ado.py` 58-60). -/
theorem work_item_type_mapping (s : String) (h : pyUpper (pyStrip s) = "PBI") :
    mapWorkItemType s = "Product Backlog Item" ∧
    mapWorkItemType "Bug" = "Bug" ∧
    mapWorkItemType "Task" = "Task" ∧
    mapWorkItemType "Feature" = "Feature" ∧
    mapWorkItemType "Epic" = "Epic" ∧
    mapWorkItemType "User Story" = "User Story" := by
  refine ⟨?_, rfl, rfl, rfl, rfl, rfl⟩
  unfold mapWorkItemType
  rw [if_pos h]

/-- Witness for C9 at the mixed-case input `"pBi"`. -/
theorem work_item_type_mapping_witness :
    mapWorkItemType "pBi" = "Product Backlog Item" ∧
    mapWorkItemType "Bug" = "Bug" ∧
    mapWorkItemType "Task" = "Task" ∧
    mapWorkItemType "Feature" = "Feature" ∧
    mapWorkItemType "Epic" = "Epic" ∧
    mapWorkItemType "User Story" = "User Story" :=
  work_item_type_mapping "pBi" (by decide)

/-- C8 counterexample: the adapter builds its Authorization header from the
configured `ADO_PAT`, not from a caller-supplied bearer credential — at a
concrete request the header differs from the caller-token encoding, and the
endpoint's attempt to pass `bearer_token` into the adapter is an invalid
keyword argument. -/
theorem adapter_credential_counterexample :
    create_work_item ⟨"https://org", "Proj", "configured-pat"⟩ "T" "D" [] "Bug" =
      .ok ⟨"https://org/Proj/_apis/wit/workitems/$Bug?api-version=7.1-preview.3",
           [("Authorization", auth_header_from_pat "configured-pat"),
            ("Content-Type", "application/json-patch+json"),
            ("Accept", "application/json")],
           [("/fields/System.Title", "T"),
            ("/fields/System.Description", "<div>D</div>")]⟩ ∧
    auth_header_from_pat "configured-pat" ≠ auth_header_from_pat "caller-token" ∧
    bindKwargs create_work_item_params createCallKwargNames =
      .error (.typeError "unexpected keyword argument") :=
  ⟨rfl, by decide, rfl⟩

/-- C8 (amended): every request the adapter builds authenticates with the
configured access credential `settings.ADO_PAT`, encoded as basic auth with
an empty username (base64 of `":" + credential`); the caller-supplied bearer
token is never used — the endpoint's `bearer_token` keyword is rejected. -/
theorem adapter_auth_uses_config_pat (s : Settings) (title d : String)
    (ac : List String) (w : String) (r : AdoRequest)
    (h : create_work_item s title d ac w = .ok r) :
    r.headers =
      [("Authorization", "Basic " ++ base64Encode (utf8Encode (":" ++ s.ADO_PAT))),
       ("Content-Type", "application/json-patch+json"),
       ("Accept", "application/json")] ∧
    bindKwargs create_work_item_params createCallKwargNames =
      .error (.typeError "unexpected keyword argument") := by
  refine ⟨?_, rfl⟩
  unfold create_work_item at h
  split at h
  · exact Except.noConfusion h
  · split at h
    · exact Except.noConfusion h
    · split at h
      · exact Except.noConfusion h
      · injection h with h2
        subst h2
        rfl

/-- Witness for the amended C8 at a concrete configuration. -/
theorem adapter_auth_uses_config_pat_witness :
    ({ url := "u/p/_apis/wit/workitems/$Task?api-version=7.1-preview.3",
       headers := [("Authorization", auth_header_from_pat "pat2"),
         ("Content-Type", "application/json-patch+json"),
         ("Accept", "application/json")],
       patchOps := [("/fields/System.Title", "T"),
         ("/fields/System.Description", "")] } : AdoRequest).headers =
      [("Authorization", "Basic " ++ base64Encode (utf8Encode (":" ++ "pat2"))),
       ("Content-Type", "application/json-patch+json"),
       ("Accept", "application/json")] ∧
    bindKwargs create_work_item_params createCallKwargNames =
      .error (.typeError "unexpected keyword argument") :=
  adapter_auth_uses_config_pat ⟨"u", "p", "pat2"⟩ "T" "" [] "Task" _ rfl

/-- C10: the create endpoint's adapter calls pass keyword arguments that the
`ado.py` signatures do not accept, so on every path that reaches them the
call raises `TypeError`, and no run of the endpoint ever returns a response
with `created = true`. -/
theorem create_endpoint_type_error (authHeader notes : String)
    (og od : Option String) :
    bindKwargs render_description_html_params renderCallKwargNames =
      .error (.typeError "unexpected keyword argument") ∧
    (∀ r, create_work_item_endpoint authHeader notes og od = .ok r →
      r.created = false) ∧
    (∀ gate draft, (soft_gate notes og).result = .ok gate →
      gateActionIsAskOnly gate = false →
      (generate_work_item_draft notes od).result = .ok draft →
      pyStartsWith authHeader "Bearer " = true →
      create_work_item_endpoint authHeader notes og od =
        .error (.typeError "unexpected keyword argument")) := by
  refine ⟨rfl, ?_, ?_⟩
  · intro r h
    unfold create_work_item_endpoint at h
    split at h
    · exact Except.noConfusion h
    · split at h
      · exact Except.noConfusion h
      · split at h
        · injection h with h2
          subst h2
          rfl
        · split at h
          · exact Except.noConfusion h
          · rw [show bindKwargs render_description_html_params renderCallKwargNames =
                Except.error (PyError.typeError "unexpected keyword argument") from rfl] at h
            exact Except.noConfusion h
  · intro gate draft hg hga hd hb
    unfold create_work_item_endpoint
    simp only [hb, Bool.not_true, Bool.false_eq_true, if_false, hg, hga, hd]
    rfl

/-- Witness for C10: a concrete full run — valid bearer header, a gate that
answers `create_draft`, a parsing draft payload — ends in the `TypeError`
from the invalid keyword arguments. -/
theorem create_endpoint_type_error_witness :
    create_work_item_endpoint "Bearer tok" "fix login"
      (some "\x7b\"action\": \"create_draft\"\x7d") (some "\x7b\x7d") =
      .error (.typeError "unexpected keyword argument") :=
  (create_endpoint_type_error "Bearer tok" "fix login"
      (some "\x7b\"action\": \"create_draft\"\x7d") (some "\x7b\x7d")).2.2
    (normalizeGate [("action", JVal.str "create_draft")]) (normalizeDraft [])
    rfl rfl rfl rfl

end ACR
